import Mathlib

/-!
Shallow embedding of the crawl-job orchestration engine of the repository
(`src/crawler/crawlerService.js`) and of the OCR confidence heuristic
(`src/ocr/ocrService.js`), together with proofs settling the frozen claims
about the natural-language specification.

Modelling conventions:
* JavaScript strings are Lean `String` (URLs) or `List Char` (OCR text).
* The mongo document (`CrawlJob`) and the in-memory record stored in the
  `activeCrawls` map are separate structures; the `activeCrawls.has(id)`
  test is the Boolean `inMap`.
* The `while` loop of `processCrawl` is a fuel-indexed iteration; running
  out of fuel models a loop that is still suspended at an `await` point
  (no exit code has run yet), which is how command interleavings that the
  real event loop allows are expressed.
* Wall-clock timestamps and the real-time transport (socket broadcasts)
  are outside the embedding; log/broadcast calls have no modelled effect.
* `processedLog`, `ocrAttempts` and `releaseCount` are ghost fields: they
  record which (url, depth) pairs passed the dequeue guard, how often the
  recognition stage was invoked, and how often browser resources were
  actually closed.  No modelled code branches on them.
-/

namespace Crawler

/-- Lifecycle status values stored in `crawlData.status` and in the
`CrawlJob` document (`'running' | 'paused' | 'stopped' | 'completed' |
'failed'`). -/
inductive Status
  | running
  | paused
  | stopped
  | completed
  | failed
deriving DecidableEq

/-- An error entry as pushed by `processCrawl` (lines 267 and 270-275):
`{ url, message }`.  The wall-clock `timestamp` field is outside the
embedding. -/
structure ErrEntry where
  url : String
  message : String
deriving DecidableEq

/-- Behaviour of one `ocrService.processImage` call, as decided by the
external Tesseract engine: either recognition succeeds with some text and
confidence, or some stage of it throws with a message. -/
inductive OcrOutcome
  | success (text : String) (conf : Int)
  | failure (msg : String)
deriving DecidableEq

/-- The result object returned by `ocrService.processImage`
(`{ text, confidence, processed, error? }`; the `analysisId` field is an
opaque uuid and is not modelled). -/
structure OcrRec where
  text : String
  confidence : Int
  processed : Bool
  error : Option String
deriving DecidableEq

/-- `ocrService.processImage` (ocrService.js lines 65-164).  Its `try`
block covers the whole body, so the function never throws: on any failure
it returns the substituted record
`{ text: "", confidence: 0, processed: false, error }` (lines 152-163). -/
def processImage (o : OcrOutcome) : OcrRec :=
  match o with
  | .success text conf => { text := text, confidence := conf, processed := true, error := none }
  | .failure msg => { text := "", confidence := 0, processed := false, error := some msg }

/-- Environment outcome for processing one dequeued URL: where the
per-URL pipeline of `processCrawl` (lines 177-264) fails, if anywhere.
`navFail` models `page.goto`/`waitForLoadState` throwing, `screenshotFail`
models `page.screenshot` throwing; `ok` carries the recognition outcome,
the links returned by `extractLinks` and the `priorityUrls` suggested by
`aiAssistant.analyzePage` (which never throws: it catches internally and
returns `priorityUrls: []` on failure). -/
inductive StepOutcome
  | navFail (msg : String)
  | screenshotFail (msg : String)
  | ok (ocr : OcrOutcome) (links : List String) (aiPriorityUrls : List String)
deriving DecidableEq

/-- The per-URL environment: what the browser / OCR / advisory collaborators
do when `processCrawl` processes a given (url, depth) pair. -/
def Env : Type := String → Nat → StepOutcome

/-- The value stored in the `activeCrawls` map by `startCrawl`
(crawlerService.js lines 107-119).  Note that no `visitedUrls` field is
created there and no later code assigns one, hence the record field is an
`Option` that stays `none`; the browser/context/pages handles are modelled
by the ghost `releaseCount` on `JobWorld`. -/
structure CrawlData where
  status : Status
  url : String
  depth : Nat
  errors : List ErrEntry
  capturedScreenshots : List String
  visitedUrlsField : Option (List String)
deriving DecidableEq

/-- The durable `CrawlJob` document as updated by the service
(`$push`/`$inc`/`updateOne` calls).  `ocrResults` counts the entries pushed
by `processScreenshotWithOCR`. -/
structure CrawlJobDoc where
  status : Status
  visitedUrls : List String
  pagesProcessed : Nat
  errors : List ErrEntry
  ocrResults : Nat
  screenshotCount : Nat
  errorCount : Nat
deriving DecidableEq

/-- Whole-job state: the live in-memory record (which the suspended
`processCrawl` keeps a reference to even after removal from the map),
whether the job is still in `activeCrawls`, the durable document, and the
ghost audit fields. -/
structure JobWorld where
  mem : CrawlData
  inMap : Bool
  db : CrawlJobDoc
  releaseCount : Nat
  processedLog : List (String × Nat)
  ocrAttempts : Nat
deriving DecidableEq

/-- The local variables of one `processCrawl` invocation
(crawlerService.js lines 152-153): `const visitedUrls = new Set()` and
`const urlQueue = [{ url: startUrl, depth: 0 }]`.  They live and die with
the invocation. -/
structure CrawlLocals where
  visitedUrls : List String
  urlQueue : List (String × Nat)
deriving DecidableEq

/-- Initial loop locals of `processCrawl(crawlId, startUrl, ...)`. -/
def initLocals (startUrl : String) : CrawlLocals :=
  { visitedUrls := [], urlQueue := [(startUrl, 0)] }

/-- `updateCrawlStatus` (crawlerService.js lines 471-528): always writes
the new status to the document; updates the in-memory record only if the
job is still in `activeCrawls` (lines 500-502). -/
def updateCrawlStatus (st : Status) (w : JobWorld) : JobWorld :=
  let w' := { w with db := { w.db with status := st } }
  if w.inMap then { w' with mem := { w'.mem with status := st } } else w'

/-- `cleanupCrawl` (crawlerService.js lines 535-577): if the job is still
in `activeCrawls`, closes pages/context/browser (ghost `releaseCount`),
writes final statistics to the document, and deletes the map entry;
otherwise it does nothing. -/
def cleanupCrawl (w : JobWorld) : JobWorld :=
  if w.inMap then
    { w with
      releaseCount := w.releaseCount + 1
      inMap := false
      db := { w.db with
        screenshotCount := w.mem.capturedScreenshots.length
        errorCount := w.mem.errors.length } }
  else w

/-- The per-URL `catch` of `processCrawl` (lines 265-276): push an error
entry onto `crawlData.errors` and onto the document, then continue the
loop. -/
def recordUrlError (url msg : String) (w : JobWorld) : JobWorld :=
  { w with
    mem := { w.mem with errors := w.mem.errors ++ [⟨url, msg⟩] }
    db := { w.db with errors := w.db.errors ++ [⟨url, msg⟩] } }

/-- `processScreenshotWithOCR` (crawlerService.js lines 374-462) with the
default options of `processCrawl`.  `ocrService.processImage` never
throws, so the relevant paths are: a result carrying `error` makes the
function return `null` (lines 400-404); otherwise the result is pushed
onto the document's `ocrResults` (lines 415-427) and returned.  In every
case the function itself returns normally. -/
def processScreenshotWithOCR (o : OcrOutcome) (w : JobWorld) : Option OcrRec × JobWorld :=
  let r := processImage o
  if r.error.isSome then (none, w)
  else (some r, { w with db := { w.db with ocrResults := w.db.ocrResults + 1 } })

/-- Body of the per-URL `try` of `processCrawl` (lines 177-264), entered
after the dequeued `(url, depth)` passed the visited/depth guard, under
the default options (`handleInfiniteScroll`, `performOcr` and `useAI` all
enabled, `skipOcr` unset).  In order: navigation (throw aborts the URL),
scrolling, screenshot (throw aborts the URL), recognition (isolated, lines
200-206), link extraction when `depth < maxDepth` (lines 222-230, appended
unconditionally), document update (lines 233-239), advisory suggestions
unshifted when unvisited (lines 242-261 — note: no depth check). -/
def processUrl (maxDepth : Nat) (out : StepOutcome) (url : String) (depth : Nat)
    (loc : CrawlLocals) (w : JobWorld) : CrawlLocals × JobWorld :=
  match out with
  | .navFail msg => (loc, recordUrlError url msg w)
  | .screenshotFail msg => (loc, recordUrlError url msg w)
  | .ok ocr links aiPriorityUrls =>
    let w1 := { w with
      mem := { w.mem with capturedScreenshots := w.mem.capturedScreenshots ++ [url] } }
    let w2 := (processScreenshotWithOCR ocr { w1 with ocrAttempts := w1.ocrAttempts + 1 }).2
    let loc1 :=
      if depth < maxDepth then
        { loc with urlQueue := loc.urlQueue ++ links.map (fun l => (l, depth + 1)) }
      else loc
    let w3 := { w2 with db := { w2.db with
      visitedUrls := w2.db.visitedUrls ++ [url]
      pagesProcessed := w2.db.pagesProcessed + 1 } }
    let loc2 := { loc1 with urlQueue :=
      ((aiPriorityUrls.filter (fun u => !loc1.visitedUrls.contains u)).map
        (fun u => (u, depth + 1))).reverse ++ loc1.urlQueue }
    (loc2, w3)

/-- One iteration of the `while` loop of `processCrawl` (lines 168-277),
assuming the loop condition held: dequeue (`urlQueue.shift()`), skip if
already visited or too deep (line 172), otherwise mark visited (line 175)
and run the per-URL pipeline. -/
def crawlStep (maxDepth : Nat) (env : Env) (loc : CrawlLocals) (w : JobWorld) :
    CrawlLocals × JobWorld :=
  match loc.urlQueue with
  | [] => (loc, w)
  | (url, depth) :: rest =>
    if loc.visitedUrls.contains url || decide (maxDepth < depth) then
      ({ loc with urlQueue := rest }, w)
    else
      let loc1 := { loc with urlQueue := rest, visitedUrls := loc.visitedUrls ++ [url] }
      let w1 := { w with processedLog := w.processedLog ++ [(url, depth)] }
      processUrl maxDepth (env url depth) url depth loc1 w1

/-- The `while (urlQueue.length > 0 && crawlData.status === 'running')`
loop (line 168), iterated for at most `fuel` rounds.  The Boolean result
records whether the loop condition became false (the loop exited and
control reached line 279) — running out of fuel models an invocation that
is still suspended mid-loop. -/
def crawlIterate (maxDepth : Nat) (env : Env) :
    Nat → CrawlLocals → JobWorld → CrawlLocals × JobWorld × Bool
  | 0, loc, w => (loc, w, false)
  | fuel + 1, loc, w =>
    if !loc.urlQueue.isEmpty && w.mem.status == .running then
      let r := crawlStep maxDepth env loc w
      crawlIterate maxDepth env fuel r.1 r.2
    else (loc, w, true)

/-- What `processCrawl` does after its loop exits without an exception:
line 280 (`updateCrawlStatus(crawlId, 'completed')` — unconditionally,
whatever made the loop condition false) followed by the `finally` cleanup
(line 288). -/
def finishCrawl (w : JobWorld) : JobWorld :=
  cleanupCrawl (updateCrawlStatus .completed w)

/-- A whole `processCrawl(crawlId, startUrl, maxDepth, options)` invocation
(lines 143-290): fresh locals, the loop, and — only if the loop actually
exited within the given fuel — the completion update and cleanup. -/
def processCrawl (maxDepth : Nat) (env : Env) (fuel : Nat) (startUrl : String)
    (w : JobWorld) : JobWorld :=
  let r := crawlIterate maxDepth env fuel (initLocals startUrl) w
  if r.2.2 then finishCrawl r.2.1 else r.2.1

/-- `startCrawl` (lines 44-133): the document is created with status
`running`, and the `activeCrawls` entry is created with the fields of
lines 107-119 — in particular with no `visitedUrls` field. -/
def startCrawl (url : String) (depth : Nat) : JobWorld :=
  { mem := { status := .running, url := url, depth := depth, errors := [],
             capturedScreenshots := [], visitedUrlsField := none }
    inMap := true
    db := { status := .running, visitedUrls := [], pagesProcessed := 0, errors := [],
            ocrResults := 0, screenshotCount := 0, errorCount := 0 }
    releaseCount := 0
    processedLog := []
    ocrAttempts := 0 }

/-- `pauseCrawl` (lines 637-660): fails unless the job is in
`activeCrawls` with status `running`; otherwise sets status `paused` in
memory and in the document. -/
def pauseCrawl (w : JobWorld) : Bool × JobWorld :=
  if w.inMap && w.mem.status == .running then
    (true, { w with mem := { w.mem with status := .paused }
                    db := { w.db with status := .paused } })
  else (false, w)

/-- `resumeCrawl` (lines 668-698): fails unless the job is in
`activeCrawls` with status `paused`; otherwise sets status `running` and
starts a NEW `processCrawl(crawlId, crawlData.url, crawlData.depth, ...)`
invocation — with fresh locals per lines 152-153. -/
def resumeCrawl (env : Env) (fuel : Nat) (w : JobWorld) : Bool × JobWorld :=
  if w.inMap && w.mem.status == .paused then
    let w1 := { w with mem := { w.mem with status := .running }
                       db := { w.db with status := .running } }
    (true, processCrawl w1.mem.depth env fuel w1.mem.url w1)
  else (false, w)

/-- `stopCrawl` (lines 706-732): fails only when the job is not in
`activeCrawls`; otherwise sets status `stopped` in memory and in the
document and runs `cleanupCrawl`. -/
def stopCrawl (w : JobWorld) : Bool × JobWorld :=
  if w.inMap then
    (true, cleanupCrawl { w with mem := { w.mem with status := .stopped }
                                 db := { w.db with status := .stopped } })
  else (false, w)

/-- The status projection returned by `getCrawlStatus` for a job found in
`activeCrawls` (lines 590-601).  `pagesProcessed` is
`activeCrawl.visitedUrls?.size || 0`: the optional-chain on the (never
created) `visitedUrls` field of the record, defaulting to `0`. -/
structure StatusReport where
  status : Status
  pagesProcessed : Nat
  screenshotCount : Nat
  errorCount : Nat
deriving DecidableEq

/-- Active-job branch of `getCrawlStatus` (crawlerService.js lines
588-601). -/
def getCrawlStatus (w : JobWorld) : StatusReport :=
  { status := w.mem.status
    pagesProcessed := (w.mem.visitedUrlsField.map List.length).getD 0
    screenshotCount := w.mem.capturedScreenshots.length
    errorCount := w.mem.errors.length }

/-! ### Infinite-scroll handling (`handleInfiniteScroll`, lines 299-334) -/

/-- Environment of one `handleInfiniteScroll` call: `height n` is what
`document.body.scrollHeight` evaluates to at the `n`-th measurement, and
`elapsed n` is `Date.now() - startTime` at the `n`-th loop-condition
check.  (In each loop round the condition check and the measurement share
the same index: the scroll counter is incremented exactly once per
round.) -/
structure ScrollEnv where
  height : Nat → Nat
  elapsed : Nat → Nat

/-- Browser actions issued by `handleInfiniteScroll`:
`window.scrollTo(0, document.body.scrollHeight)` and
`window.scrollTo(0, 0)`. -/
inductive ScrollAction
  | scrollBottom
  | scrollTop
deriving DecidableEq

/-- The `while (scrollCount < maxScrolls && Date.now() - startTime <
scrollTimeout)` loop of `handleInfiniteScroll` (lines 309-330): measure
the height, break if it equals the previous one, otherwise scroll to the
bottom, wait, and continue with the updated tracking variables.  Returns
the final `scrollCount` and the emitted scroll actions.  `fuel` only
guarantees termination; the callers below pass enough for the
`scrollCount < maxScrolls` conjunct to be the binding bound. -/
def scrollLoop (e : ScrollEnv) (maxScrolls timeout : Nat) :
    Nat → Nat → Nat → Nat × List ScrollAction
  | 0, count, _ => (count, [])
  | fuel + 1, count, prev =>
    if count < maxScrolls && e.elapsed count < timeout then
      let currentHeight := e.height count
      if currentHeight == prev then (count, [])
      else
        let r := scrollLoop e maxScrolls timeout fuel (count + 1) currentHeight
        (r.1, .scrollBottom :: r.2)
    else (count, [])

/-- `handleInfiniteScroll` (lines 299-334): run the scroll loop starting
from `previousHeight = 0`, `scrollCount = 0`, then always scroll back to
the top (line 333). -/
def handleInfiniteScroll (e : ScrollEnv) (maxScrolls timeout : Nat) :
    Nat × List ScrollAction :=
  let r := scrollLoop e maxScrolls timeout (maxScrolls + 1) 0 0
  (r.1, r.2 ++ [.scrollTop])

/-- Height value the loop compares the `n`-th measurement against:
`previousHeight` starts at `0` and is the previous measurement
afterwards. -/
def prevHeight (e : ScrollEnv) : Nat → Nat
  | 0 => 0
  | n + 1 => e.height n

/-- The continuation test of round `n` of the scroll loop: the loop keeps
scrolling at round `n` iff the scroll cap is not reached, the timeout has
not elapsed, and the fresh measurement differs from the previous one. -/
def scrollContinue (e : ScrollEnv) (maxScrolls timeout n : Nat) : Bool :=
  n < maxScrolls && e.elapsed n < timeout && !(e.height n == prevHeight e n)

/-! ### OCR confidence scoring (`calculateConfidence`, ocrService.js
lines 249-276)

The JavaScript computes with IEEE doubles; the embedding idealizes that
arithmetic over the real numbers (hence the real-valued core below is
`noncomputable`, while the tokenizer and the counts stay computable). -/

/-- Whitespace for the purposes of `text.split(/\s+/)` and `text.trim()`:
space, tab, line feed, carriage return, form feed, vertical tab. -/
def jsIsSpace (c : Char) : Bool :=
  c == ' ' || c == '\t' || c == '\n' || c == '\r' || c == Char.ofNat 12 || c == Char.ofNat 11

/-- Helper for `jsWords`: accumulate the current word (reversed) while
scanning. -/
def jsWordsAux : List Char → List Char → List (List Char)
  | [], acc => if acc.isEmpty then [] else [acc.reverse]
  | c :: cs, acc =>
    if jsIsSpace c then
      if acc.isEmpty then jsWordsAux cs [] else acc.reverse :: jsWordsAux cs []
    else jsWordsAux cs (c :: acc)

/-- `text.split(/\s+/).filter(word => word.length > 0)` (ocrService.js
line 255): the whitespace-separated words of the text. -/
def jsWords (text : List Char) : List (List Char) :=
  jsWordsAux text []

/-- `wordCount` (line 256). -/
def wordCount (text : List Char) : Nat :=
  (jsWords text).length

/-- Total length of all words, the numerator of `avgWordLength`
(line 259). -/
def wordLenSum (text : List Char) : Nat :=
  ((jsWords text).map List.length).sum

/-- The common recognition-error glyphs counted by the regex
`[?#~|{}\[\]]` (line 262); the braces are written by code point. -/
def isErrorChar (c : Char) : Bool :=
  c == '?' || c == '#' || c == '~' || c == '|' ||
  c == Char.ofNat 123 || c == Char.ofNat 125 || c == '[' || c == ']'

/-- Number of error glyphs in the text (line 262). -/
def errorCharCount (text : List Char) : Nat :=
  (text.filter isErrorChar).length

/-- The real-valued confidence computed by lines 255-272 before rounding
and clamping: `min(100, 40 + 30*log10(max(1, wordCount)))` plus
`min(20, avgWordLength * 2)` minus `errorRatio * 50`. -/
noncomputable def confidenceCore (text : List Char) : ℝ :=
  min 100 (40 + 30 * Real.logb 10 (max 1 (wordCount text : ℝ)))
    + min 20 (((wordLenSum text : ℝ) / max 1 (wordCount text : ℝ)) * 2)
    - ((errorCharCount text : ℝ) / (text.length : ℝ)) * 50

/-- `calculateConfidence` (ocrService.js lines 249-276): `0` for empty or
whitespace-only text (`!text || text.trim().length === 0`); otherwise the
core value rounded (`Math.round`, which is round-half-up, Mathlib's
`round`) and clamped to `[0, 100]` (line 275). -/
noncomputable def calculateConfidence (text : List Char) : ℤ :=
  if text.all jsIsSpace then 0
  else max 0 (min 100 (round (confidenceCore text)))

/-- Modelled from the spec (section 4.4), reference-formula core as the
specification words it: base `min(100, 40 + 30·log10(max(1, tokenCount)))`,
plus `min(20, 2·averageTokenLength)`, minus 50 times the fraction of
characters that are error glyphs.  Used only to compare the code's formula
against the claim's wording. -/
noncomputable def specCore (text : List Char) : ℝ :=
  min 100 (40 + 30 * Real.logb 10 (max 1 (wordCount text : ℝ)))
    + min 20 (2 * ((wordLenSum text : ℝ) / max 1 (wordCount text : ℝ)))
    - 50 * ((errorCharCount text : ℝ) / (text.length : ℝ))

/-- Modelled from the spec (section 4.4): the reference confidence score —
the core formula clamped to `[0, 100]`, empty text scoring 0, and no
rounding step (the specification words none). -/
noncomputable def specConfidence (text : List Char) : ℝ :=
  if text.all jsIsSpace then 0
  else max 0 (min 100 (specCore text))

/-! ### Concrete fixtures used by the closed theorems below -/

/-- Environment where the root "r" links to "a" and the advisory service
suggests priority URL "p" while "a" (depth 1) is being processed. -/
def envLinkThenSuggest : Env := fun url _ =>
  if url = "r" then .ok (.success "t" 80) ["a"] []
  else .ok (.success "t" 80) [] ["p"]

/-- Environment where every page links back to the root "r". -/
def envSelfLink : Env := fun _ _ => .ok (.success "t" 80) ["r"] []

/-- Iterated `stopCrawl`, discarding the Boolean results. -/
def stopN : Nat → JobWorld → JobWorld
  | 0, w => w
  | n + 1, w => stopN n (stopCrawl w).2

/-- Scroll environment whose measurements are 100, 200, 200, 200, ...:
the second and third checks agree, right after scroll #2. -/
def twoScrollEnv : ScrollEnv :=
  { height := fun n => [100, 200, 200].getD n 200, elapsed := fun _ => 0 }

/-- A text with 10 tokens of total length 13 and no error glyphs, on
which the confidence core evaluates to the non-integer 72.6. -/
def roundingText : List Char := "abcd b c d e f g h i j".toList

/-- A text with exactly 50 tokens, each of length 6, and no error
glyphs. -/
def fiftyTokenText : List Char := (List.replicate 50 "abcdef ".toList).flatten

/-- The job of the C1/C2 failing input: started on root "r" with
maxDepth 1 under `envLinkThenSuggest`, after its first loop iteration
(root processed, link "a" queued, loop suspended at an await point). -/
def stepOneRun : CrawlLocals × JobWorld × Bool :=
  crawlIterate 1 envLinkThenSuggest 1 (initLocals "r") (startCrawl "r" 1)

/-- The same job right after a successful `pauseCrawl`. -/
def pausedWorld : JobWorld := (pauseCrawl stepOneRun.2.1).2

/-- The paused job's loop continued until its condition check: it exits
with the frontier still holding `("a", 1)`. -/
def pausedExitRun : CrawlLocals × JobWorld × Bool :=
  crawlIterate 1 envLinkThenSuggest 5 stepOneRun.1 pausedWorld

/-- Environment in which navigation throws for every URL. -/
def alwaysNavFail : Env := fun _ _ => .navFail "net::ERR_TIMED_OUT"

/-- Environment in which navigation, scrolling and the screenshot succeed
but the recognition stage fails, and every page links to "x". -/
def alwaysOcrFail : Env := fun _ _ => .ok (.failure "tesseract crashed") ["x"] []

/-! ## Preservation lemmas about the per-URL pipeline -/

/-- `processScreenshotWithOCR` only ever touches the document's
`ocrResults` counter. -/
theorem processScreenshotWithOCR_snd_mem (o : OcrOutcome) (w : JobWorld) :
    (processScreenshotWithOCR o w).2.mem = w.mem := by
  simp only [processScreenshotWithOCR]
  split <;> rfl

theorem processScreenshotWithOCR_snd_processedLog (o : OcrOutcome) (w : JobWorld) :
    (processScreenshotWithOCR o w).2.processedLog = w.processedLog := by
  simp only [processScreenshotWithOCR]
  split <;> rfl

theorem processScreenshotWithOCR_snd_inMap (o : OcrOutcome) (w : JobWorld) :
    (processScreenshotWithOCR o w).2.inMap = w.inMap := by
  simp only [processScreenshotWithOCR]
  split <;> rfl

theorem processScreenshotWithOCR_snd_db_status (o : OcrOutcome) (w : JobWorld) :
    (processScreenshotWithOCR o w).2.db.status = w.db.status := by
  simp only [processScreenshotWithOCR]
  split <;> rfl

theorem processScreenshotWithOCR_snd_ocrAttempts (o : OcrOutcome) (w : JobWorld) :
    (processScreenshotWithOCR o w).2.ocrAttempts = w.ocrAttempts := by
  simp only [processScreenshotWithOCR]
  split <;> rfl

/-- The per-URL pipeline never touches the loop's visited set. -/
theorem processUrl_visitedUrls (m : Nat) (out : StepOutcome) (url : String) (depth : Nat)
    (loc : CrawlLocals) (w : JobWorld) :
    (processUrl m out url depth loc w).1.visitedUrls = loc.visitedUrls := by
  cases out with
  | navFail msg => rfl
  | screenshotFail msg => rfl
  | ok o l a =>
    simp only [processUrl]
    split <;> rfl

/-- The per-URL pipeline never touches the ghost log of processed URLs. -/
theorem processUrl_processedLog (m : Nat) (out : StepOutcome) (url : String) (depth : Nat)
    (loc : CrawlLocals) (w : JobWorld) :
    (processUrl m out url depth loc w).2.processedLog = w.processedLog := by
  cases out with
  | navFail msg => rfl
  | screenshotFail msg => rfl
  | ok o l a =>
    simp only [processUrl]
    rw [processScreenshotWithOCR_snd_processedLog]

/-- The per-URL pipeline never creates a `visitedUrls` field on the
in-memory record. -/
theorem processUrl_visitedUrlsField (m : Nat) (out : StepOutcome) (url : String) (depth : Nat)
    (loc : CrawlLocals) (w : JobWorld) :
    (processUrl m out url depth loc w).2.mem.visitedUrlsField = w.mem.visitedUrlsField := by
  cases out with
  | navFail msg => rfl
  | screenshotFail msg => rfl
  | ok o l a =>
    simp only [processUrl]
    rw [processScreenshotWithOCR_snd_mem]

/-- The per-URL pipeline never changes the in-memory lifecycle status. -/
theorem processUrl_mem_status (m : Nat) (out : StepOutcome) (url : String) (depth : Nat)
    (loc : CrawlLocals) (w : JobWorld) :
    (processUrl m out url depth loc w).2.mem.status = w.mem.status := by
  cases out with
  | navFail msg => rfl
  | screenshotFail msg => rfl
  | ok o l a =>
    simp only [processUrl]
    rw [processScreenshotWithOCR_snd_mem]

/-- The per-URL pipeline never changes the document's lifecycle status. -/
theorem processUrl_db_status (m : Nat) (out : StepOutcome) (url : String) (depth : Nat)
    (loc : CrawlLocals) (w : JobWorld) :
    (processUrl m out url depth loc w).2.db.status = w.db.status := by
  cases out with
  | navFail msg => rfl
  | screenshotFail msg => rfl
  | ok o l a =>
    simp only [processUrl]
    rw [processScreenshotWithOCR_snd_db_status]

/-- The in-memory record's (absent) `visitedUrls` field is untouched by a
loop iteration. -/
theorem crawlStep_visitedUrlsField (m : Nat) (env : Env) (loc : CrawlLocals) (w : JobWorld) :
    (crawlStep m env loc w).2.mem.visitedUrlsField = w.mem.visitedUrlsField := by
  unfold crawlStep
  split
  · rfl
  · split
    · rfl
    · rw [processUrl_visitedUrlsField]

/-- The in-memory record's (absent) `visitedUrls` field is untouched by the
whole crawl loop. -/
theorem crawlIterate_visitedUrlsField (m : Nat) (env : Env) :
    ∀ (fuel : Nat) (loc : CrawlLocals) (w : JobWorld),
      (crawlIterate m env fuel loc w).2.1.mem.visitedUrlsField = w.mem.visitedUrlsField
  | 0, _, _ => rfl
  | fuel + 1, loc, w => by
    unfold crawlIterate
    split
    · rw [crawlIterate_visitedUrlsField m env fuel]
      exact crawlStep_visitedUrlsField m env loc w
    · rfl

/-- Depth bound pushed through the per-URL pipeline: when the URL being
processed is within `maxDepth`, every pair it adds to the frontier has
depth at most `maxDepth + 1` (discovered links stay `≤ maxDepth`; only the
advisory priority insertion can reach `maxDepth + 1`). -/
theorem processUrl_queue_bound (m : Nat) (out : StepOutcome) (url : String) (depth : Nat)
    (loc : CrawlLocals) (w : JobWorld) (hd : depth ≤ m)
    (hq : ∀ p ∈ loc.urlQueue, p.2 ≤ m + 1) :
    ∀ p ∈ (processUrl m out url depth loc w).1.urlQueue, p.2 ≤ m + 1 := by
  cases out with
  | navFail msg => exact hq
  | screenshotFail msg => exact hq
  | ok o l a =>
    by_cases hlt : depth < m
    · intro p hp
      simp only [processUrl, if_pos hlt, List.mem_append, List.mem_reverse, List.mem_map,
        List.mem_filter] at hp
      rcases hp with ⟨u, hu, rfl⟩ | hp | hp
      · omega
      · exact hq p hp
      · rcases hp with ⟨u, hu, rfl⟩
        omega
    · intro p hp
      simp only [processUrl, if_neg hlt, List.mem_append, List.mem_reverse, List.mem_map,
        List.mem_filter] at hp
      rcases hp with ⟨u, hu, rfl⟩ | hp
      · omega
      · exact hq p hp

/-- Depth invariant of one loop iteration: frontier entries stay at depth
`≤ maxDepth + 1`, and only pairs with depth `≤ maxDepth` pass the dequeue
guard into processing. -/
theorem crawlStep_depth_inv (m : Nat) (env : Env) (loc : CrawlLocals) (w : JobWorld)
    (hq : ∀ p ∈ loc.urlQueue, p.2 ≤ m + 1)
    (hl : ∀ p ∈ w.processedLog, p.2 ≤ m) :
    (∀ p ∈ (crawlStep m env loc w).1.urlQueue, p.2 ≤ m + 1) ∧
    (∀ p ∈ (crawlStep m env loc w).2.processedLog, p.2 ≤ m) := by
  unfold crawlStep
  split
  · exact ⟨hq, hl⟩
  · rename_i url depth rest heq
    split
    · refine ⟨fun p hp => hq p ?_, hl⟩
      rw [heq]
      exact List.mem_cons_of_mem _ hp
    · rename_i hguard
      have hgd : depth ≤ m := by
        simp only [Bool.or_eq_true, decide_eq_true_eq, not_or] at hguard
        omega
      constructor
      · refine processUrl_queue_bound m _ url depth _ _ hgd ?_
        intro p hp
        exact hq p (by rw [heq]; exact List.mem_cons_of_mem _ hp)
      · rw [processUrl_processedLog]
        intro p hp
        simp only [List.mem_append, List.mem_singleton] at hp
        rcases hp with hp | rfl
        · exact hl p hp
        · exact hgd

/-- Depth invariant of the whole crawl loop. -/
theorem crawlIterate_depth_inv (m : Nat) (env : Env) :
    ∀ (fuel : Nat) (loc : CrawlLocals) (w : JobWorld),
      (∀ p ∈ loc.urlQueue, p.2 ≤ m + 1) →
      (∀ p ∈ w.processedLog, p.2 ≤ m) →
      (∀ p ∈ (crawlIterate m env fuel loc w).1.urlQueue, p.2 ≤ m + 1) ∧
      (∀ p ∈ (crawlIterate m env fuel loc w).2.1.processedLog, p.2 ≤ m)
  | 0, _, _, hq, hl => ⟨hq, hl⟩
  | fuel + 1, loc, w, hq, hl => by
    unfold crawlIterate
    split
    · have h := crawlStep_depth_inv m env loc w hq hl
      exact crawlIterate_depth_inv m env fuel _ _ h.1 h.2
    · exact ⟨hq, hl⟩

/-- Visited-set invariant of one loop iteration: the loop-local visited
set is exactly the first projection of the ghost log of processed pairs,
and it has no duplicates (the dequeue guard skips already-visited URLs). -/
theorem crawlStep_visited_inv (m : Nat) (env : Env) (loc : CrawlLocals) (w : JobWorld)
    (hv : loc.visitedUrls = w.processedLog.map Prod.fst)
    (hnd : loc.visitedUrls.Nodup) :
    (crawlStep m env loc w).1.visitedUrls =
      (crawlStep m env loc w).2.processedLog.map Prod.fst ∧
    (crawlStep m env loc w).1.visitedUrls.Nodup := by
  unfold crawlStep
  split
  · exact ⟨hv, hnd⟩
  · rename_i url depth rest heq
    split
    · exact ⟨hv, hnd⟩
    · rename_i hguard
      have hmem : url ∉ loc.visitedUrls := by
        simp only [Bool.or_eq_true, decide_eq_true_eq, not_or] at hguard
        simpa using hguard.1
      rw [processUrl_visitedUrls, processUrl_processedLog]
      constructor
      · simp [hv]
      · simp [List.nodup_append, hnd, hmem]

/-- Visited-set invariant of the whole crawl loop. -/
theorem crawlIterate_visited_inv (m : Nat) (env : Env) :
    ∀ (fuel : Nat) (loc : CrawlLocals) (w : JobWorld),
      loc.visitedUrls = w.processedLog.map Prod.fst →
      loc.visitedUrls.Nodup →
      (crawlIterate m env fuel loc w).1.visitedUrls =
        (crawlIterate m env fuel loc w).2.1.processedLog.map Prod.fst ∧
      (crawlIterate m env fuel loc w).1.visitedUrls.Nodup
  | 0, _, _, hv, hnd => ⟨hv, hnd⟩
  | fuel + 1, loc, w, hv, hnd => by
    unfold crawlIterate
    split
    · have h := crawlStep_visited_inv m env loc w hv hnd
      exact crawlIterate_visited_inv m env fuel _ _ h.1 h.2
    · exact ⟨hv, hnd⟩

end Crawler

namespace Crawler

/-! ## Theorems settling the claims -/

/-- Claim C1 (the code at the failing input): a job is started on root
"r" with maxDepth 1; after one loop iteration `pauseCrawl` succeeds; the
loop then exits at its next condition check with a NON-empty frontier of
`[("a", 1)]`, and the code after the loop (line 280) still transitions
the job to `completed` — so exiting the crawl loop because status was
changed to `paused` does result in a transition to `completed`, contrary
to the claim (and likewise the `paused`/`stopped` status is overwritten). -/
theorem c1_paused_exit_still_completes :
    (pauseCrawl stepOneRun.2.1).1 = true ∧
    pausedExitRun.2.2 = true ∧
    pausedExitRun.1.urlQueue = [("a", 1)] ∧
    (finishCrawl pausedExitRun.2.1).db.status = Status.completed ∧
    (finishCrawl pausedExitRun.2.1).mem.status = Status.completed := by
  decide

/-- Claim C2 (the code at the failing input): with the job of
`c1_paused_exit_still_completes` paused after processing the root,
`resumeCrawl` (when it runs while the paused loop is still suspended at
an await point) starts a fresh `processCrawl` with empty locals, so the
root URL "r" is yielded for processing a second time — the frontier and
visited set are not reused.  In the fully sequential interleaving the
paused loop exits, marks the job completed and cleans it up first, and
`resumeCrawl` then returns `false` outright. -/
theorem c2_resume_restarts_from_scratch :
    (resumeCrawl envLinkThenSuggest 1 pausedWorld).1 = true ∧
    (resumeCrawl envLinkThenSuggest 1 pausedWorld).2.processedLog = [("r", 0), ("r", 0)] ∧
    (resumeCrawl envLinkThenSuggest 5 (finishCrawl pausedExitRun.2.1)).1 = false := by
  decide

/-- Claim C3, counterexample: with maxDepth 1, after the root "r" (depth
0) and its link "a" (depth 1) are processed, the advisory suggestion "p"
made while processing "a" is inserted at the frontier head as
`("p", 2)` — a pair whose depth 2 exceeds maxDepth 1, so the
priority-insertion path does add over-depth pairs to the frontier. -/
theorem c3_counterexample_priority_depth_exceeds :
    ("p", 2) ∈ (crawlIterate 1 envLinkThenSuggest 2 (initLocals "r") (startCrawl "r" 1)).1.urlQueue
      ∧ 1 < 2 := by
  decide

/-- Claim C4, counterexample: the first `stopCrawl` on a freshly started
job returns `true`, but the second returns `false` (the cleanup removed
the job from `activeCrawls`), so repeated calls do not return the same
result. -/
theorem c4_counterexample_second_stop_not_same :
    (stopCrawl (startCrawl "r" 1)).1 = true ∧
    (stopCrawl (stopCrawl (startCrawl "r" 1)).2).1 = false := by
  decide

/-- Claim C5, counterexample: with every page linking back to the root
"r" and maxDepth 1, after the first loop iteration "r" is in
`visitedUrls` and yet `("r", 1)` has been appended to the frontier — the
discovered-link path enqueues without checking `visitedUrls` (dedup only
happens at dequeue, line 172). -/
theorem c5_counterexample_visited_reenqueued :
    let r := crawlIterate 1 envSelfLink 1 (initLocals "r") (startCrawl "r" 1)
    "r" ∈ r.1.visitedUrls ∧ ("r", 1) ∈ r.1.urlQueue := by
  decide

/-- Claim C3 as amended: the discovered-link path never enqueues beyond
`maxDepth`, but the advisory priority insertion checks only the visited
set, so the frontier can hold pairs up to depth `maxDepth + 1`; such
over-depth pairs are skipped by the dequeue guard (line 172), so every
pair that is actually processed has depth `≤ maxDepth`.  Stated for an
arbitrary environment, fuel, root URL and `maxDepth`, starting from
`startCrawl`. -/
theorem c3_amended_frontier_depth_bound (url : String) (m fuel : Nat) (env : Env) :
    (∀ p ∈ (crawlIterate m env fuel (initLocals url) (startCrawl url m)).1.urlQueue,
        p.2 ≤ m + 1) ∧
    (∀ p ∈ (crawlIterate m env fuel (initLocals url) (startCrawl url m)).2.1.processedLog,
        p.2 ≤ m) := by
  refine crawlIterate_depth_inv m env fuel _ _ ?_ ?_
  · intro p hp
    simp only [initLocals, List.mem_singleton] at hp
    subst hp
    omega
  · intro p hp
    simp only [startCrawl, List.not_mem_nil] at hp

/-- Claim C5 as amended: discovered links are appended to the frontier
without any check against `visitedUrls` or the queue (the counterexample
above); deduplication happens at dequeue time instead, so within a
`processCrawl` run the visited set never contains duplicates, it is
exactly the list of URLs actually processed, and consequently no URL is
ever processed twice. -/
theorem c5_amended_dedup_at_dequeue (url : String) (m fuel : Nat) (env : Env) :
    (crawlIterate m env fuel (initLocals url) (startCrawl url m)).1.visitedUrls.Nodup ∧
    ((crawlIterate m env fuel (initLocals url) (startCrawl url m)).2.1.processedLog.map
        Prod.fst).Nodup ∧
    (crawlIterate m env fuel (initLocals url) (startCrawl url m)).1.visitedUrls =
      (crawlIterate m env fuel (initLocals url) (startCrawl url m)).2.1.processedLog.map
        Prod.fst := by
  have h := crawlIterate_visited_inv m env fuel (initLocals url) (startCrawl url m) rfl
    List.nodup_nil
  exact ⟨h.2, h.1 ▸ h.2, h.1⟩

/-- Witness for `c3_amended_frontier_depth_bound`: the run of the C3
counterexample instantiates the theorem, and the over-depth advisory pair
`("p", 2)` indeed sits exactly at the bound `maxDepth + 1 = 2`. -/
theorem c3_amended_frontier_depth_bound_witness :
    ("p", 2) ∈ (crawlIterate 1 envLinkThenSuggest 2 (initLocals "r")
        (startCrawl "r" 1)).1.urlQueue ∧ (("p", 2) : String × Nat).2 ≤ 1 + 1 :=
  ⟨by decide, (c3_amended_frontier_depth_bound "r" 1 2 envLinkThenSuggest).1 ("p", 2)
    (by decide)⟩

/-- Helper: `stopCrawl` on a job that is no longer in `activeCrawls`
returns `false` and changes nothing. -/
theorem stopCrawl_not_inMap (w : JobWorld) (h : w.inMap = false) : stopCrawl w = (false, w) := by
  simp [stopCrawl, h]

/-- Helper: iterated `stopCrawl` on a job that is no longer in
`activeCrawls` is the identity. -/
theorem stopN_not_inMap (w : JobWorld) (h : w.inMap = false) : ∀ n, stopN n w = w
  | 0 => rfl
  | n + 1 => by
    unfold stopN
    rw [stopCrawl_not_inMap w h]
    exact stopN_not_inMap w h n

/-- Claim C4 as amended: the first `stopCrawl` on a job in the active map
returns `true`, sets status `stopped` in memory and in the document, and
releases the browser resources exactly once (cleanup removes the job from
the map, so the release count rises by exactly one); every later
`stopCrawl` is a no-op that returns `false` ("not found") rather than the
first call's result, with no error and no further release. -/
theorem c4_amended_stop_idempotent (w : JobWorld) (h : w.inMap = true) :
    (stopCrawl w).1 = true ∧
    (stopCrawl w).2.mem.status = Status.stopped ∧
    (stopCrawl w).2.db.status = Status.stopped ∧
    (stopCrawl w).2.inMap = false ∧
    (stopCrawl w).2.releaseCount = w.releaseCount + 1 ∧
    (∀ n, stopN n (stopCrawl w).2 = (stopCrawl w).2) ∧
    (∀ n, (stopCrawl (stopN n (stopCrawl w).2)).1 = false) := by
  have h2 : (stopCrawl w).2.inMap = false := by simp [stopCrawl, cleanupCrawl, h]
  refine ⟨?_, ?_, ?_, h2, ?_, fun n => stopN_not_inMap _ h2 n, fun n => ?_⟩
  · simp [stopCrawl, h]
  · simp [stopCrawl, cleanupCrawl, h]
  · simp [stopCrawl, cleanupCrawl, h]
  · simp [stopCrawl, cleanupCrawl, h]
  · rw [stopN_not_inMap _ h2 n, stopCrawl_not_inMap _ h2]

/-- Witness for `c4_amended_stop_idempotent` on a freshly started job,
with three further stop calls. -/
theorem c4_amended_stop_idempotent_witness :
    (startCrawl "u" 1).inMap = true ∧
    (stopCrawl (startCrawl "u" 1)).1 = true ∧
    (stopCrawl (startCrawl "u" 1)).2.releaseCount = (startCrawl "u" 1).releaseCount + 1 ∧
    (stopCrawl (stopN 3 (stopCrawl (startCrawl "u" 1)).2)).1 = false :=
  ⟨rfl, (c4_amended_stop_idempotent (startCrawl "u" 1) rfl).1,
    (c4_amended_stop_idempotent (startCrawl "u" 1) rfl).2.2.2.2.1,
    (c4_amended_stop_idempotent (startCrawl "u" 1) rfl).2.2.2.2.2.2 3⟩

/-- Claim C9: when navigation fails for the dequeued URL (and that URL
passed the dequeue guard), exactly one error entry `{url, message}` is
recorded in memory and in the document, the error count grows by one, no
screenshot is captured and the recognition stage is never invoked for
that URL, the loop continues with the rest of the frontier, and neither
the in-memory nor the document lifecycle status changes. -/
theorem c9_navigation_failure_isolated (m : Nat) (env : Env) (loc : CrawlLocals)
    (w : JobWorld) (url msg : String) (depth : Nat) (rest : List (String × Nat))
    (hq : loc.urlQueue = (url, depth) :: rest)
    (hv : url ∉ loc.visitedUrls)
    (hd : depth ≤ m)
    (he : env url depth = .navFail msg) :
    (crawlStep m env loc w).2.mem.errors = w.mem.errors ++ [⟨url, msg⟩] ∧
    (crawlStep m env loc w).2.db.errors = w.db.errors ++ [⟨url, msg⟩] ∧
    (crawlStep m env loc w).2.mem.errors.length = w.mem.errors.length + 1 ∧
    (crawlStep m env loc w).2.mem.capturedScreenshots = w.mem.capturedScreenshots ∧
    (crawlStep m env loc w).2.ocrAttempts = w.ocrAttempts ∧
    (crawlStep m env loc w).1.urlQueue = rest ∧
    (crawlStep m env loc w).2.mem.status = w.mem.status ∧
    (crawlStep m env loc w).2.db.status = w.db.status := by
  have hc : loc.visitedUrls.contains url = false := by simpa using hv
  have hdd : decide (m < depth) = false := by simp; omega
  simp only [crawlStep, hq, hc, hdd, Bool.or_self, Bool.false_eq_true, if_false, he,
    processUrl, recordUrlError]
  simp

/-- Witness for `c9_navigation_failure_isolated`: a fresh job on root "r"
whose navigation times out. -/
theorem c9_navigation_failure_isolated_witness :
    (crawlStep 1 alwaysNavFail (initLocals "r") (startCrawl "r" 1)).2.mem.errors =
      (startCrawl "r" 1).mem.errors ++ [⟨"r", "net::ERR_TIMED_OUT"⟩] ∧
    (crawlStep 1 alwaysNavFail (initLocals "r") (startCrawl "r" 1)).1.urlQueue = [] ∧
    (crawlStep 1 alwaysNavFail (initLocals "r") (startCrawl "r" 1)).2.mem.status =
      (startCrawl "r" 1).mem.status :=
  have h := c9_navigation_failure_isolated 1 alwaysNavFail (initLocals "r")
    (startCrawl "r" 1) "r" "net::ERR_TIMED_OUT" 0 [] rfl (by decide) (by decide) rfl
  ⟨h.1, h.2.2.2.2.2.1, h.2.2.2.2.2.2.1⟩

/-- Claim C8: when the recognition stage fails for the dequeued URL (and
that URL passed the dequeue guard), neither the in-memory nor the
document lifecycle status changes, `ocrService.processImage` substitutes
the empty-text, zero-confidence result tagged with the error, the
recognition stage did run (and only once), and link extraction still
takes place whenever `depth < maxDepth`: every extracted link is enqueued
at `depth + 1`. -/
theorem c8_recognition_failure_isolated (m : Nat) (env : Env) (loc : CrawlLocals)
    (w : JobWorld) (url msg : String) (depth : Nat) (rest : List (String × Nat))
    (links ai : List String)
    (hq : loc.urlQueue = (url, depth) :: rest)
    (hv : url ∉ loc.visitedUrls)
    (hd : depth ≤ m)
    (he : env url depth = .ok (.failure msg) links ai) :
    (crawlStep m env loc w).2.mem.status = w.mem.status ∧
    (crawlStep m env loc w).2.db.status = w.db.status ∧
    processImage (.failure msg) =
      { text := "", confidence := 0, processed := false, error := some msg } ∧
    (crawlStep m env loc w).2.ocrAttempts = w.ocrAttempts + 1 ∧
    (depth < m → ∀ l ∈ links, (l, depth + 1) ∈ (crawlStep m env loc w).1.urlQueue) := by
  have hc : loc.visitedUrls.contains url = false := by simpa using hv
  have hdd : decide (m < depth) = false := by simp; omega
  simp only [crawlStep, hq, hc, hdd, Bool.or_self, Bool.false_eq_true, if_false, he]
  refine ⟨?_, ?_, rfl, ?_, fun hlt l hl => ?_⟩
  · rw [processUrl_mem_status]
  · rw [processUrl_db_status]
  · simp only [processUrl]
    rw [processScreenshotWithOCR_snd_ocrAttempts]
  · simp only [processUrl, if_pos hlt, List.mem_append, List.mem_reverse, List.mem_map,
      List.mem_filter]
    exact Or.inr (Or.inr ⟨l, hl, rfl⟩)

/-- Witness for `c8_recognition_failure_isolated`: a fresh job on root
"r" whose recognition stage crashes while the page links to "x". -/
theorem c8_recognition_failure_isolated_witness :
    (crawlStep 1 alwaysOcrFail (initLocals "r") (startCrawl "r" 1)).2.mem.status =
      (startCrawl "r" 1).mem.status ∧
    processImage (.failure "tesseract crashed") =
      { text := "", confidence := 0, processed := false, error := some "tesseract crashed" } ∧
    ("x", 0 + 1) ∈ (crawlStep 1 alwaysOcrFail (initLocals "r") (startCrawl "r" 1)).1.urlQueue :=
  have h := c8_recognition_failure_isolated 1 alwaysOcrFail (initLocals "r")
    (startCrawl "r" 1) "r" "tesseract crashed" 0 [] ["x"] [] rfl (by decide) (by decide) rfl
  ⟨h.1, h.2.2.1, h.2.2.2.2 (by decide) "x" (by decide)⟩

/-- Claim C10: for any job in the active in-memory map — however far its
crawl loop has run, under any environment — `getCrawlStatus` reports
`pagesProcessed = 0`, because the record created by `startCrawl` has no
`visitedUrls` field, the loop's visited set is local to `processCrawl`,
and the report reads `activeCrawl.visitedUrls?.size || 0`.  The last two
conjuncts exhibit a concrete run that processed two pages (the document
counter reads 2) while the active-status report still says 0. -/
theorem c10_active_report_pages_zero (url : String) (m fuel : Nat) (env : Env) :
    (getCrawlStatus (crawlIterate m env fuel (initLocals url)
        (startCrawl url m)).2.1).pagesProcessed = 0 ∧
    (crawlIterate 1 envLinkThenSuggest 2 (initLocals "r")
        (startCrawl "r" 1)).2.1.db.pagesProcessed = 2 ∧
    (getCrawlStatus (crawlIterate 1 envLinkThenSuggest 2 (initLocals "r")
        (startCrawl "r" 1)).2.1).pagesProcessed = 0 := by
  refine ⟨?_, by decide, by decide⟩
  simp [getCrawlStatus, crawlIterate_visitedUrlsField, startCrawl]

/-- The scroll loop's stop predicate eventually holds: at `n = maxScrolls`
the scroll-cap conjunct of the loop condition fails. -/
theorem scrollContinue_exists_false (e : ScrollEnv) (m t : Nat) :
    ∃ n, scrollContinue e m t n = false :=
  ⟨m, by simp [scrollContinue]⟩

/-- Characterization of the scroll loop: started at round `count` with the
matching previous height and enough fuel, and with every earlier round
having continued, it performs scrolls exactly until the first round whose
continuation test fails (equal consecutive measurements, scroll cap, or
timeout — whichever comes first), emitting one bottom-scroll per round. -/
theorem scrollLoop_eq_find (e : ScrollEnv) (m t : Nat) :
    ∀ (fuel count : Nat), m + 1 ≤ fuel + count →
      (∀ k, k < count → scrollContinue e m t k = true) →
      scrollLoop e m t fuel count (prevHeight e count) =
        (Nat.find (scrollContinue_exists_false e m t),
          List.replicate (Nat.find (scrollContinue_exists_false e m t) - count)
            ScrollAction.scrollBottom)
  | 0, count, hfc, hall => by
    have hstop : scrollContinue e m t count = false := by
      have hnm : ¬ count < m := by omega
      simp [scrollContinue, hnm]
    have hfind : Nat.find (scrollContinue_exists_false e m t) = count := by
      rw [Nat.find_eq_iff]
      exact ⟨hstop, fun k hk => by simp [hall k hk]⟩
    simp [scrollLoop, hfind]
  | fuel + 1, count, hfc, hall => by
    by_cases hm : count < m
    · by_cases ht : e.elapsed count < t
      · by_cases hh : e.height count = prevHeight e count
        · have hstop : scrollContinue e m t count = false := by
            simp [scrollContinue, hh]
          have hfind : Nat.find (scrollContinue_exists_false e m t) = count := by
            rw [Nat.find_eq_iff]
            exact ⟨hstop, fun k hk => by simp [hall k hk]⟩
          simp [scrollLoop, hm, ht, hh, hfind]
        · have hcont : scrollContinue e m t count = true := by
            simp [scrollContinue, hm, ht, hh]
          have hall' : ∀ k, k < count + 1 → scrollContinue e m t k = true := by
            intro k hk
            rcases Nat.lt_succ_iff_lt_or_eq.1 hk with hk' | rfl
            · exact hall k hk'
            · exact hcont
          have hrec := scrollLoop_eq_find e m t fuel (count + 1) (by omega) hall'
          have hlt : count < Nat.find (scrollContinue_exists_false e m t) := by
            rw [Nat.lt_find_iff]
            intro k hk
            simp [hall' k (Nat.lt_succ_of_le hk)]
          have hprev : e.height count = prevHeight e (count + 1) := rfl
          simp only [scrollLoop, hm, ht, decide_True, Bool.and_self, if_true, hh,
            beq_iff_eq, if_false]
          rw [hprev, hrec]
          simp only []
          rw [show Nat.find (scrollContinue_exists_false e m t) - count =
            (Nat.find (scrollContinue_exists_false e m t) - (count + 1)) + 1 from by omega,
            List.replicate_succ]
      · have hstop : scrollContinue e m t count = false := by
          simp [scrollContinue, ht]
        have hfind : Nat.find (scrollContinue_exists_false e m t) = count := by
          rw [Nat.find_eq_iff]
          exact ⟨hstop, fun k hk => by simp [hall k hk]⟩
        simp [scrollLoop, ht, hfind]
    · have hstop : scrollContinue e m t count = false := by
        simp [scrollContinue, hm]
      have hfind : Nat.find (scrollContinue_exists_false e m t) = count := by
        rw [Nat.find_eq_iff]
        exact ⟨hstop, fun k hk => by simp [hall k hk]⟩
      simp [scrollLoop, hm, hfind]

/-- Claim C7: `handleInfiniteScroll` performs exactly as many bottom
scrolls as there are rounds before the FIRST stop trigger — two equal
consecutive height measurements, the scroll cap, or the timeout — and
always ends by scrolling back to the top (its action trace is that many
bottom-scrolls followed by one top-scroll).  The second conjunct checks
the concrete two-scroll run: measurements 100, 200, 200 with a cap of 10
and no timeout pressure stop after exactly 2 scrolls. -/
theorem c7_scroll_stops_at_first_trigger (e : ScrollEnv) (m t : Nat) :
    handleInfiniteScroll e m t =
      (Nat.find (scrollContinue_exists_false e m t),
        List.replicate (Nat.find (scrollContinue_exists_false e m t))
          ScrollAction.scrollBottom ++ [ScrollAction.scrollTop]) ∧
    handleInfiniteScroll twoScrollEnv 10 30000 =
      (2, [ScrollAction.scrollBottom, ScrollAction.scrollBottom, ScrollAction.scrollTop]) := by
  constructor
  · have h := scrollLoop_eq_find e m t (m + 1) 0 (by omega)
      (fun k hk => absurd hk (Nat.not_lt_zero k))
    unfold handleInfiniteScroll
    rw [show scrollLoop e m t (m + 1) 0 0 =
      scrollLoop e m t (m + 1) 0 (prevHeight e 0) from rfl, h]
    simp
  · decide

/-- Helper: the code-ordered confidence core and the spec-worded core are
the same real-valued expression (the operand orders differ). -/
theorem confidenceCore_eq_specCore (text : List Char) : confidenceCore text = specCore text := by
  unfold confidenceCore specCore
  ring_nf

/-- Evaluation of the confidence core on `roundingText` (10 tokens, total
token length 13, no error glyphs, so the core is 70 + 2.6 = 72.6). -/
theorem confidenceCore_roundingText : confidenceCore roundingText = 363 / 5 := by
  unfold confidenceCore
  rw [show wordCount roundingText = 10 from by decide,
    show wordLenSum roundingText = 13 from by decide,
    show errorCharCount roundingText = 0 from by decide]
  have hmax : max (1 : ℝ) ((10 : ℕ) : ℝ) = 10 := by norm_num
  rw [hmax, Real.logb_self_eq_one (by norm_num)]
  norm_num [min_def]

/-- `calculateConfidence` on `roundingText`: the code rounds 72.6 up to
73 before clamping. -/
theorem calculateConfidence_roundingText : calculateConfidence roundingText = 73 := by
  unfold calculateConfidence
  rw [if_neg (by decide), confidenceCore_roundingText]
  have hr : round ((363 : ℝ) / 5) = 73 := by
    rw [round_eq]
    apply Int.floor_eq_iff.mpr
    constructor <;> norm_num
  rw [hr]
  norm_num

/-- The spec-worded reference formula on `roundingText` yields the
unrounded 72.6. -/
theorem specConfidence_roundingText : specConfidence roundingText = 363 / 5 := by
  unfold specConfidence
  rw [if_neg (by decide), ← confidenceCore_eq_specCore, confidenceCore_roundingText]
  norm_num

/-- Claim C6, counterexample: on the text "abcd b c d e f g h i j" the
code scores 73 while the reference formula of the claim (which has no
rounding step) gives 72.6 — the code's confidence does not equal the
reference formula. -/
theorem c6_counterexample_rounding :
    calculateConfidence roundingText = 73 ∧
    specConfidence roundingText = 363 / 5 ∧
    ((calculateConfidence roundingText : ℝ) ≠ specConfidence roundingText) := by
  refine ⟨calculateConfidence_roundingText, specConfidence_roundingText, ?_⟩
  rw [calculateConfidence_roundingText, specConfidence_roundingText]
  norm_num

/-- Helper: scanning an all-whitespace text yields no words. -/
theorem jsWordsAux_all_space : ∀ t : List Char, (∀ c ∈ t, jsIsSpace c = true) →
    jsWordsAux t [] = []
  | [], _ => rfl
  | c :: cs, h => by
    have hc : jsIsSpace c = true := h c (List.mem_cons_self c cs)
    simp only [jsWordsAux, hc, if_true, List.isEmpty_nil]
    exact jsWordsAux_all_space cs (fun d hd => h d (List.mem_cons_of_mem c hd))

/-- Helper: an all-whitespace text has token count 0. -/
theorem all_space_wordCount_zero (t : List Char) (h : t.all jsIsSpace = true) :
    wordCount t = 0 := by
  unfold wordCount jsWords
  rw [jsWordsAux_all_space t (by simpa [List.all_eq_true] using h)]
  rfl

/-- Claim C6 as amended: the confidence score equals the reference
formula with one addition forced by the counterexample — the core value
is rounded half-up to an integer (`Math.round`) before the `[0, 100]`
clamp; empty or whitespace-only text still scores 0.  Consequently a text
with 50 tokens of average length 6 (token lengths summing to 300) and no
error glyphs scores in `[70, 100]`. -/
theorem c6_amended_confidence_formula :
    (∀ text : List Char, calculateConfidence text =
      if text.all jsIsSpace then 0 else max 0 (min 100 (round (specCore text)))) ∧
    (∀ text : List Char, wordCount text = 50 → wordLenSum text = 300 →
      errorCharCount text = 0 →
      70 ≤ calculateConfidence text ∧ calculateConfidence text ≤ 100) := by
  constructor
  · intro text
    unfold calculateConfidence
    rw [confidenceCore_eq_specCore]
  · intro text h50 h300 h0
    have hns : text.all jsIsSpace = false := by
      rcases Bool.eq_false_or_eq_true (text.all jsIsSpace) with h | h
      · rw [all_space_wordCount_zero text h] at h50
        exact absurd h50 (by norm_num)
      · exact h
    have hcore : confidenceCore text = min 100 (40 + 30 * Real.logb 10 50) + 12 := by
      unfold confidenceCore
      rw [h50, h300, h0]
      have hmax : max (1 : ℝ) ((50 : ℕ) : ℝ) = 50 := by norm_num
      rw [hmax]
      norm_num
    have hlog : (1 : ℝ) ≤ Real.logb 10 50 := by
      have h10 : Real.logb 10 10 = 1 := Real.logb_self_eq_one (by norm_num)
      calc (1 : ℝ) = Real.logb 10 10 := h10.symm
        _ ≤ Real.logb 10 50 :=
          Real.logb_le_logb_of_le (by norm_num) (by norm_num) (by norm_num)
    have hcge : (82 : ℝ) ≤ confidenceCore text := by
      rw [hcore]
      have hminge : (70 : ℝ) ≤ min 100 (40 + 30 * Real.logb 10 50) :=
        le_min (by norm_num) (by linarith)
      linarith
    unfold calculateConfidence
    rw [if_neg (by simp [hns])]
    constructor
    · have hr : (70 : ℤ) ≤ round (confidenceCore text) := by
        rw [round_eq, Int.le_floor]
        push_cast
        linarith
      exact le_trans (le_min (by norm_num) hr) (le_max_right 0 _)
    · exact max_le (by norm_num) (min_le_left _ _)

/-- Witness for `c6_amended_confidence_formula`: the concrete text of 50
"abcdef " tokens satisfies the scenario hypotheses and scores within
`[70, 100]`. -/
theorem c6_amended_confidence_formula_witness :
    wordCount fiftyTokenText = 50 ∧ wordLenSum fiftyTokenText = 300 ∧
    errorCharCount fiftyTokenText = 0 ∧
    (70 ≤ calculateConfidence fiftyTokenText ∧ calculateConfidence fiftyTokenText ≤ 100) :=
  ⟨by decide, by decide, by decide,
    c6_amended_confidence_formula.2 fiftyTokenText (by decide) (by decide) (by decide)⟩

end Crawler
